import Mathlib

/-!
Shallow embedding of `src/twitchdc/api.py` (class `HelixAPI`).

Modelling conventions:
* The HTTP transport is scripted: each logical call receives a list of
  `HttpResponse` values and consumes one per request issued.  The token
  endpoint is scripted by a single `TokenResponse` (at most one refresh can
  happen per logical call, guarded by `_access_token_refreshed`).
* Python's dynamic typing of the class attributes `_ratelimit_remaining`
  (initially the int `0`, later a header string or `None`) is modelled by
  `PyStrVal`.  Python's `"0" != 0` is `True`; `None != 0` is `True`.
* Python exceptions are modelled by `PyError`.  State mutations performed
  before a raise persist, so stateful operations return the final state
  together with an optional error instead of an `Except` that drops state.
* Line 143 of the source, `self._refresh_access_token = False`, assigns an
  instance attribute that shadows the method `_refresh_access_token`; this is
  modelled by the boolean field `refreshClobbered` (a subsequent call of the
  method raises `TypeError`).  It does not touch `_access_token_refreshed`.
* Line 106, `response.raise_for_status`, accesses the method without calling
  it, hence is a no-op; the model therefore performs no status check there.
* `__init__` assigns `self.headers` (line 56) and `self.http` (line 57) only
  after the optional constructor-side refresh (line 52); attribute access
  before assignment raises `AttributeError`, modelled via the `httpSet` and
  `headersSet` fields.
* Wall-clock time is integer milliseconds; the source's `0.1` second margin
  becomes `100` ms and `reset_time` seconds become `reset_time * 1000` ms.
* datetimes are modelled by their rendered ISO strings.
* Record payloads inside the `data` field of a response body are abstract
  (`Nat`).
-/

/-- A Python value that is the int `0` initially and later a header string or
`None` (dynamic typing of `_ratelimit_remaining` / `_ratelimit_reset_timestamp`). -/
inductive PyStrVal where
  | int (n : Int)
  | str (s : String)
  | pynone
deriving DecidableEq

/-- Python exceptions raised by the code under `src/twitchdc/api.py`, plus two
artifacts of the scripted-transport model. -/
inductive PyError where
  | authError
  | requestError (status : Nat)
  | invariantViolation
  | typeError
  | keyError
  | valueError
  | attributeError
  | callbackError
  | scriptExhausted
  | fuelExhausted
deriving DecidableEq

/-- JSON body of a Helix data response: optional `data` list, optional
`pagination.cursor`, optional `total`. -/
structure Body where
  data : Option (List Nat) := none
  pagination_cursor : Option String := none
  total : Option Int := none
deriving DecidableEq

/-- One scripted transport response: status code, the two rate-limit headers
(absent = `none`), and the JSON body. -/
structure HttpResponse where
  status : Nat
  ratelimitRemaining : Option String := none
  ratelimitReset : Option String := none
  body : Body := {}
deriving DecidableEq

/-- Scripted response of the OAuth token endpoint: its status code and the
`access_token` field of its JSON body (absent = `none`). -/
structure TokenResponse where
  status : Nat
  access_token : Option String := none
deriving DecidableEq

/-- The mutable state of a `HelixAPI` instance.  `refreshCount` is
instrumentation (not a source attribute): it counts completed credential
exchanges, so theorems can state how many refreshes a run performed. -/
structure HelixState where
  client_id : String
  client_secret : String
  access_token : String
  authHeader : String
  access_token_refresh_callback : Option (String → Except Unit Unit)
  _access_token_refreshed : Bool
  _ratelimit_remaining : PyStrVal
  _ratelimit_reset_timestamp : PyStrVal
  refreshClobbered : Bool
  httpSet : Bool
  headersSet : Bool
  refreshCount : Nat

/-- Python `x != 0` for a dynamically typed header value: a string or `None`
never equals the int `0`. -/
def pyNeZero : PyStrVal → Bool
  | .int n => n != 0
  | .str _ => true
  | .pynone => true

/-- Python `int(x)`: ints pass through, strings are parsed (`ValueError` on
garbage), `None` raises `TypeError`. -/
def pyToInt : PyStrVal → Except PyError Int
  | .int n => .ok n
  | .str s =>
    match s.toInt? with
    | some n => .ok n
    | none => .error .valueError
  | .pynone => .error .typeError

/-- Header lookup result as stored by lines 139-140: the header string when
present, Python `None` when absent. -/
def headerVal : Option String → PyStrVal
  | some s => .str s
  | none => .pynone

/-- Lines 139-140 of `_get_request`: unconditionally store both rate-limit
headers of the response (absent headers store `None`). -/
def observeHeaders (st : HelixState) (r : HttpResponse) : HelixState :=
  { st with
    _ratelimit_remaining := headerVal r.ratelimitRemaining,
    _ratelimit_reset_timestamp := headerVal r.ratelimitReset }

/-- `HelixAPI._wait_for_rate_limit_reset` (lines 85-93), time in ms.  Returns
the slept duration, `none` when no sleep was needed. -/
def _wait_for_rate_limit_reset (st : HelixState) (nowMs : Int) :
    Except PyError (Option Int) :=
  if pyNeZero st._ratelimit_remaining then .error .invariantViolation
  else
    match pyToInt st._ratelimit_reset_timestamp with
    | .error e => .error e
    | .ok resetSec =>
      let waitMs := 100 + resetSec * 1000 - nowMs
      .ok (if 0 < waitMs then some waitMs else none)

/-- `HelixAPI._refresh_access_token` (lines 96-113).  The `tok` argument is
the scripted token-endpoint response.  Returns the state after the call and
the raised exception, if any (mutations before a raise persist).  Notes:
line 105 reads `self.http` and line 109 reads `self.headers`, which raise
`AttributeError` when `__init__` has not assigned them yet; line 106 accesses
`raise_for_status` without calling it, so the response status is never
checked. -/
def _refresh_access_token (st : HelixState) (tok : TokenResponse) :
    HelixState × Option PyError :=
  if ¬ st.httpSet then (st, some .attributeError)
  else
    let st := { st with refreshCount := st.refreshCount + 1 }
    match tok.access_token with
    | none => (st, some .keyError)
    | some t =>
      let st := { st with access_token := t }
      if ¬ st.headersSet then (st, some .attributeError)
      else
        let st := { st with authHeader := "Bearer " ++ t }
        match st.access_token_refresh_callback with
        | some f =>
          match f t with
          | .error _ => (st, some .callbackError)
          | .ok _ => ({ st with _access_token_refreshed := true }, none)
        | none => ({ st with _access_token_refreshed := true }, none)

/-- Result of one logical `_get_request` call: final instance state, the
unconsumed tail of the transport script, the number of transport requests
issued, the sleeps performed (ms), and the outcome. -/
structure GetResult where
  st : HelixState
  rest : List HttpResponse
  requests : Nat
  sleeps : List Int
  result : Except PyError Body

/-- `HelixAPI._get_request` (lines 116-164) over a scripted transport.  Each
recursive retry (429 or 401) consumes the next scripted response.  The 200
branch models line 143 (`self._refresh_access_token = False`): it sets the
instance attribute that shadows the method (`refreshClobbered := true`) and
leaves `_access_token_refreshed` unchanged.  The 401 branch first checks the
guard, then calls `self._refresh_access_token()`, which raises `TypeError`
when the attribute has been shadowed by a bool. -/
def _get_request (st : HelixState) (script : List HttpResponse)
    (tok : TokenResponse) (nowMs : Int) : GetResult :=
  match script with
  | [] => ⟨st, [], 0, [], .error .scriptExhausted⟩
  | r :: rest =>
    let st := observeHeaders st r
    if r.status == 200 then
      ⟨{ st with refreshClobbered := true }, rest, 1, [], .ok r.body⟩
    else if r.status == 429 then
      match _wait_for_rate_limit_reset st nowMs with
      | .error e => ⟨st, rest, 1, [], .error e⟩
      | .ok slept =>
        let res := _get_request st rest tok nowMs
        ⟨res.st, res.rest, res.requests + 1, slept.toList ++ res.sleeps, res.result⟩
    else if r.status == 401 then
      if st._access_token_refreshed then ⟨st, rest, 1, [], .error .authError⟩
      else if st.refreshClobbered then ⟨st, rest, 1, [], .error .typeError⟩
      else
        match _refresh_access_token st tok with
        | (st', some e) => ⟨st', rest, 1, [], .error e⟩
        | (st', none) =>
          let res := _get_request st' rest tok nowMs
          ⟨res.st, res.rest, res.requests + 1, res.sleeps, res.result⟩
    else ⟨st, rest, 1, [], .error (.requestError r.status)⟩

/-- `HelixAPI.__init__` (lines 25-57).  Returns the constructed state and the
exception raised during construction, if any.  With `access_token = none` the
constructor calls `_refresh_access_token` (line 52) before `self.headers`
(line 56) and `self.http` (line 57) exist. -/
def helixInit (client_id client_secret : String) (access_token : Option String)
    (cb : Option (String → Except Unit Unit)) (tok : TokenResponse) :
    HelixState × Option PyError :=
  let st : HelixState :=
    { client_id := client_id, client_secret := client_secret,
      access_token := "", authHeader := "",
      access_token_refresh_callback := cb,
      _access_token_refreshed := false,
      _ratelimit_remaining := .int 0,
      _ratelimit_reset_timestamp := .str "0",
      refreshClobbered := false,
      httpSet := false, headersSet := false, refreshCount := 0 }
  match access_token with
  | none =>
    match _refresh_access_token st tok with
    | (st', some e) => (st', some e)
    | (st', none) =>
      ({ st' with headersSet := true,
                  authHeader := "Bearer " ++ st'.access_token,
                  httpSet := true }, none)
  | some t =>
    ({ st with access_token := t, headersSet := true,
               authHeader := "Bearer " ++ t, httpSet := true }, none)

/-- A value stored in a Python query-parameter dict: a string or a list of
strings (absent values are `none` at the dict level). -/
inductive ParamVal where
  | s (v : String)
  | slist (v : List String)
deriving DecidableEq

/-- The `params` dict handed to `_paginated_request`.  The keys the loop
mutates (`first`, `after`) are explicit fields (`none` = key absent); all
other keys live untouched in `rest`. -/
structure Params where
  first : Option Int := none
  after : Option String := none
  rest : List (String × Option ParamVal) := []
deriving DecidableEq

/-- Result of `_paginated_request`: final instance state, the final `params`
dict (the source mutates the caller's dict in place), the unconsumed script,
the total number of transport requests, and the outcome. -/
structure PagResult where
  st : HelixState
  params : Params
  rest : List HttpResponse
  requests : Nat
  result : Except PyError (List Nat)

/-- The `while` loop of `_paginated_request` (lines 197-210), fuel-indexed.
The fuel is a model artifact: `_paginated_request` supplies
`script.length + 1`, which is never exhausted because every iteration that
recurses consumed at least one scripted response. -/
def _paginated_request_loop (tok : TokenResponse) (nowMs : Int)
    (maxPer : Int) (cap : Option Int) :
    Nat → HelixState → List HttpResponse → Params → Int → List Nat → PagResult
  | 0, st, script, params, _, _ => ⟨st, params, script, 0, .error .fuelExhausted⟩
  | fuel + 1, st, script, params, togo, acc =>
    if togo > 0 ∨ cap = none then
      let params1 := { params with first := some (min maxPer togo) }
      let g := _get_request st script tok nowMs
      match g.result with
      | .error e => ⟨g.st, params1, g.rest, g.requests, .error e⟩
      | .ok body =>
        match body.data with
        | none => ⟨g.st, params1, g.rest, g.requests, .error .keyError⟩
        | some d =>
          match body.pagination_cursor with
          | some cur =>
            let res := _paginated_request_loop tok nowMs maxPer cap fuel g.st
              g.rest { params1 with after := some cur } (togo - d.length) (acc ++ d)
            ⟨res.st, res.params, res.rest, g.requests + res.requests, res.result⟩
          | none => ⟨g.st, params1, g.rest, g.requests, .ok (acc ++ d)⟩
    else ⟨st, params, script, 0, .ok acc⟩

/-- `HelixAPI._paginated_request` (lines 167-213) over a scripted transport.
`records_to_go` starts at `cap_records`, or at `max_records_per_page` when
`cap_records` is `None`; the loop runs while `records_to_go > 0 or
cap_records is None`.  The `endpoint` argument plays no behavioural role in
the scripted-transport model. -/
def _paginated_request (st : HelixState) (script : List HttpResponse)
    (tok : TokenResponse) (nowMs : Int) (endpoint : String) (params : Params)
    (max_records_per_page : Int) (cap_records : Option Int) : PagResult :=
  let togo : Int :=
    match cap_records with
    | none => max_records_per_page
    | some n => n
  _paginated_request_loop tok nowMs max_records_per_page cap_records
    (script.length + 1) st script params togo []

/-- `datetime_to_str` (line 13); datetimes are modelled by their rendered ISO
strings, so the conversion is the identity on present values and keeps
`None`. -/
def datetime_to_str (dt : Option String) : Option String := dt

/-- Result of a public endpoint method: final state, transport requests
issued, and the outcome (a list of records). -/
structure EndpointResult where
  st : HelixState
  requests : Nat
  result : Except PyError (List Nat)

/-- Python `sum([a is not None, b is not None, c is not None])`. -/
def selCount3 (a b c : Bool) : Nat :=
  (if a then 1 else 0) + (if b then 1 else 0) + (if c then 1 else 0)

/-- `HelixAPI.get_clips` (lines 271-313): validation (max 100 ids, exactly
one of `clip_id`/`broadcaster_id`/`game_id`), then a paginated request with
`max_records_per_page = 100`. -/
def get_clips (st : HelixState) (script : List HttpResponse)
    (tok : TokenResponse) (nowMs : Int)
    (broadcaster_id game_id : Option String) (clip_id : Option (List String))
    (started_at ended_at : Option String) (cap_records : Option Int) :
    EndpointResult :=
  if clip_id.isSome ∧ 100 < (clip_id.getD []).length then
    ⟨st, 0, .error .valueError⟩
  else if ¬ selCount3 clip_id.isSome broadcaster_id.isSome game_id.isSome = 1 then
    ⟨st, 0, .error .valueError⟩
  else
    let params : Params :=
      { rest := [("broadcaster_id", broadcaster_id.map .s),
                 ("game_id", game_id.map .s),
                 ("id", clip_id.map .slist),
                 ("started_at", (datetime_to_str started_at).map .s),
                 ("ended_at", (datetime_to_str ended_at).map .s)] }
    let r := _paginated_request st script tok nowMs "clips" params 100 cap_records
    ⟨r.st, r.requests, r.result⟩

/-- `HelixAPI.get_videos` (lines 529-599): validation (max 100 ids, exactly
one of `video_ids`/`user_id`/`game_id`, plus the dependent-parameter checks),
then either one `_get_request` (by ids) or a paginated request. -/
def get_videos (st : HelixState) (script : List HttpResponse)
    (tok : TokenResponse) (nowMs : Int)
    (video_ids : Option (List String)) (user_id game_id : Option String)
    (language period sort video_type : Option String)
    (cap_records : Option Int) : EndpointResult :=
  if video_ids.isSome ∧ 100 < (video_ids.getD []).length then
    ⟨st, 0, .error .valueError⟩
  else if ¬ selCount3 video_ids.isSome user_id.isSome game_id.isSome = 1 then
    ⟨st, 0, .error .valueError⟩
  else if language.isSome ∧ game_id = none then
    ⟨st, 0, .error .valueError⟩
  else if period.isSome ∧ (game_id = none ∧ user_id = none) then
    ⟨st, 0, .error .valueError⟩
  else if sort.isSome ∧ (game_id = none ∧ user_id = none) then
    ⟨st, 0, .error .valueError⟩
  else if video_type.isSome ∧ (game_id = none ∧ user_id = none) then
    ⟨st, 0, .error .valueError⟩
  else if cap_records.isSome ∧ (game_id = none ∧ user_id = none) then
    ⟨st, 0, .error .valueError⟩
  else
    let params : Params :=
      { rest := [("id", video_ids.map .slist),
                 ("user_id", user_id.map .s),
                 ("game_id", game_id.map .s),
                 ("language", language.map .s),
                 ("period", period.map .s),
                 ("sort", sort.map .s),
                 ("type", video_type.map .s)] }
    if video_ids.isSome then
      let g := _get_request st script tok nowMs
      match g.result with
      | .error e => ⟨g.st, g.requests, .error e⟩
      | .ok body =>
        match body.data with
        | none => ⟨g.st, g.requests, .error .keyError⟩
        | some d => ⟨g.st, g.requests, .ok d⟩
    else
      let r := _paginated_request st script tok nowMs "videos" params 100 cap_records
      ⟨r.st, r.requests, r.result⟩

/-- A server page for pagination scenarios: its records and its optional
continuation cursor. -/
structure Page where
  data : List Nat
  cursor : Option String
deriving DecidableEq

/-- Default page, used only as the `List.getD` fallback in statements. -/
def dfltPage : Page := ⟨[], none⟩

/-- The 200 transport response serving a page. -/
def pageResp (p : Page) : HttpResponse :=
  { status := 200, ratelimitRemaining := some "799",
    ratelimitReset := some "1700000000",
    body := { data := some p.data, pagination_cursor := p.cursor } }

/-- Total number of records of a list of pages. -/
def sumLensNat (l : List Page) : Nat := (l.map fun p => p.data.length).sum

/-- Total number of records of a list of pages, as an integer. -/
def sumLensI (l : List Page) : Int := (sumLensNat l : Int)

/-- The cursor most recently seen across a list of pages, falling back to a
given previous value when no page carried one. -/
def lastCursorOr (l : List Page) (a : Option String) : Option String :=
  match (l.filterMap Page.cursor).getLast? with
  | some c => some c
  | none => a

/-- Reference count of pages the `_paginated_request` loop consumes from a
scripted page list, starting from `togo` remaining records: consume while
`togo > 0` (or always, when the cap is unset); a cursorless page is always the
last one consumed. -/
def pagesConsumedGen (cap : Option Int) : List Page → Int → Nat
  | [], _ => 0
  | p :: ps, togo =>
    if togo > 0 ∨ cap = none then
      match p.cursor with
      | none => 1
      | some _ => 1 + pagesConsumedGen cap ps (togo - p.data.length)
    else 0

/-- Scripted token-endpoint response that succeeds with token `newtok`. -/
def tokGood : TokenResponse := { status := 200, access_token := some "newtok" }

/-- A client constructed with a caller-supplied access token (the only
construction path that completes, see `helixInit`). -/
def st0 : HelixState := (helixInit "cid" "sec" (some "tok") none tokGood).1

/-- A successful data response carrying both rate-limit headers. -/
def respOK : HttpResponse :=
  { status := 200, ratelimitRemaining := some "799",
    ratelimitReset := some "1700000000", body := { data := some [1, 2, 3] } }

/-- An unauthorized response. -/
def resp401 : HttpResponse :=
  { status := 401, ratelimitRemaining := some "798",
    ratelimitReset := some "1700000000" }

/-- A throttled response whose `Ratelimit-Remaining` header is the string
`"0"`. -/
def resp429zero : HttpResponse :=
  { status := 429, ratelimitRemaining := some "0",
    ratelimitReset := some "1700000000" }

/-- A successful response carrying no rate-limit headers. -/
def respNoHeaders : HttpResponse := { status := 200, body := { data := some [] } }

/-- The end-to-end pagination scenario of the spec: pages of 100, 100 and 50
records with cursors `A`, `B` and then none. -/
def pagesC5 : List Page :=
  [⟨List.replicate 100 0, some "A"⟩,
   ⟨List.replicate 100 0, some "B"⟩,
   ⟨List.replicate 50 0, none⟩]

/-- Two pages, the first of which carries a cursor. -/
def pagesC6 : List Page := [⟨[5], some "A"⟩, ⟨[7], none⟩]

/-- A refresh callback that raises. -/
def badCb : String → Except Unit Unit := fun _ => .error ()

/-- A client whose registered refresh callback raises. -/
def stCb : HelixState := { st0 with access_token_refresh_callback := some badCb }

/-- A caller-supplied `params` dict carrying only an endpoint-specific key. -/
def paramsEx : Params := { rest := [("broadcaster_id", some (.s "123"))] }

/-- Claim C1 (code bug at line 143): the guard reset on success assigns
`False` to `_refresh_access_token` instead of `_access_token_refreshed`,
shadowing the method.  After one successful logical call, the first 401 of
the next logical call raises `TypeError` instead of refreshing and retrying:
one request is issued, no credential exchange happens, the token is
unchanged.  Moreover the constructor path that mints the token itself raises
`AttributeError` (it uses `self.http` before `__init__` defines it), so no
client constructed that way exists at all. -/
theorem c1_success_then_401_raises_typeerror :
    (_get_request st0 [respOK] tokGood 0).result = .ok respOK.body ∧
    (_get_request (_get_request st0 [respOK] tokGood 0).st
        [resp401, respOK] tokGood 0).result = .error .typeError ∧
    (_get_request (_get_request st0 [respOK] tokGood 0).st
        [resp401, respOK] tokGood 0).requests = 1 ∧
    (_get_request (_get_request st0 [respOK] tokGood 0).st
        [resp401, respOK] tokGood 0).st.refreshCount = 0 ∧
    (_get_request (_get_request st0 [respOK] tokGood 0).st
        [resp401, respOK] tokGood 0).st.access_token = "tok" ∧
    (helixInit "cid" "sec" none none tokGood).2 = some .attributeError :=
  ⟨rfl, rfl, rfl, rfl, rfl, rfl⟩

/-- Claim C2 (code bug at lines 86 and 139): `_get_request` stores the
`Ratelimit-Remaining` header as a string, and `_wait_for_rate_limit_reset`
compares it with the integer `0`; in Python `"0" != 0` is true, so a 429
whose remaining-quota header is `"0"` raises the invariant exception
("Request returned 429 but rate limit is not 0...?") instead of waiting and
retrying: one request, no sleep, no retry. -/
theorem c2_429_with_zero_remaining_raises_instead_of_waiting :
    (_get_request st0 [resp429zero, respOK] tokGood 0).result
      = .error .invariantViolation ∧
    (_get_request st0 [resp429zero, respOK] tokGood 0).requests = 1 ∧
    (_get_request st0 [resp429zero, respOK] tokGood 0).sleeps = [] ∧
    (_get_request st0 [resp429zero, respOK] tokGood 0).st._ratelimit_remaining
      = .str "0" :=
  ⟨rfl, rfl, rfl, rfl⟩

/-- Claim C3 (code bug at line 106): `response.raise_for_status` lacks the
call parentheses and is a no-op, so a non-success token-endpoint status (here
500) is silently ignored: the refresh reads the body and installs its
`access_token` value, reporting success. -/
theorem c3_refresh_ignores_non_success_status :
    (_refresh_access_token st0 { status := 500, access_token := some "evil" }).2
      = none ∧
    (_refresh_access_token st0 { status := 500, access_token := some "evil" }).1.access_token
      = "evil" ∧
    (_refresh_access_token st0 { status := 500, access_token := some "evil" }).1.authHeader
      = "Bearer evil" :=
  ⟨rfl, rfl, rfl⟩

/-- Claim C4 (code bug at line 143): after a 401 (which refreshes, setting
the guard) followed by a 200, the success branch leaves
`_access_token_refreshed` set to `True` (it was supposed to reset it) and
instead changes another attribute: it assigns `False` over the method
`_refresh_access_token` (modelled by `refreshClobbered = true`). -/
theorem c4_success_branch_does_not_reset_guard :
    (_get_request st0 [resp401, respOK] tokGood 0).result = .ok respOK.body ∧
    (_get_request st0 [resp401, respOK] tokGood 0).st._access_token_refreshed
      = true ∧
    (_get_request st0 [resp401, respOK] tokGood 0).st.refreshClobbered = true ∧
    (_get_request st0 [resp401, respOK] tokGood 0).st.refreshCount = 1 :=
  ⟨rfl, rfl, rfl, rfl⟩

/-- Claim C6 counterexample: with `cap_records = None` the loop condition
`records_to_go > 0 or cap_records is None` is always true, so the call does
NOT terminate after the first page when that page carries a cursor: against
two pages (the first cursored) it issues 2 requests and returns both pages'
records. -/
theorem c6_cap_none_does_not_stop_after_first_page :
    (_paginated_request st0 (pagesC6.map pageResp) tokGood 0 "games/top" {}
        100 none).requests = 2 ∧
    (_paginated_request st0 (pagesC6.map pageResp) tokGood 0 "games/top" {}
        100 none).result = .ok [5, 7] ∧
    (_paginated_request st0 (pagesC6.map pageResp) tokGood 0 "games/top" {}
        100 none).rest = [] :=
  ⟨rfl, rfl, rfl⟩

/-- Claim C8 counterexample: nothing catches an exception of the registered
refresh callback (lines 110-111), so a raising callback aborts the refresh:
the error propagates and `_access_token_refreshed` is never set — although
the new credential was already installed before the callback ran. -/
theorem c8_callback_exception_aborts_refresh :
    (_refresh_access_token stCb tokGood).2 = some .callbackError ∧
    (_refresh_access_token stCb tokGood).1._access_token_refreshed = false ∧
    (_refresh_access_token stCb tokGood).1.access_token = "newtok" :=
  ⟨rfl, rfl, rfl⟩

/-- Claim C9 counterexample: lines 139-140 store the header lookup result
unconditionally, so a response without rate-limit headers overwrites the
previously recorded values (here `"799"`) with Python `None` — not a no-op. -/
theorem c9_absent_headers_overwrite_state :
    (_get_request st0 [respOK] tokGood 0).st._ratelimit_remaining
      = .str "799" ∧
    (_get_request (_get_request st0 [respOK] tokGood 0).st
        [respNoHeaders] tokGood 0).st._ratelimit_remaining = .pynone ∧
    (_get_request (_get_request st0 [respOK] tokGood 0).st
        [respNoHeaders] tokGood 0).st._ratelimit_reset_timestamp = .pynone :=
  ⟨rfl, rfl, rfl⟩

/-- Claim C10 counterexample: with `cap_records = 0` the loop body never
runs, so `_paginated_request` returns with the caller's `params` dict exactly
as supplied — no `first` key is added and nothing is mutated. -/
theorem c10_cap_zero_leaves_params_untouched :
    (_paginated_request st0 [] tokGood 0 "clips" paramsEx 100 (some 0)).params
      = paramsEx ∧
    (_paginated_request st0 [] tokGood 0 "clips" paramsEx 100 (some 0)).params.first
      = none ∧
    (_paginated_request st0 [] tokGood 0 "clips" paramsEx 100 (some 0)).requests
      = 0 :=
  ⟨rfl, rfl, rfl⟩

/-- One `_get_request` step against a scripted 200 page response: it observes
the headers, shadows the method attribute, consumes one response and returns
the page body. -/
theorem get_request_page (st : HelixState) (p : Page) (s : List HttpResponse)
    (tok : TokenResponse) (nowMs : Int) :
    _get_request st (pageResp p :: s) tok nowMs =
      ⟨{ observeHeaders st (pageResp p) with refreshClobbered := true }, s, 1, [],
        .ok { data := some p.data, pagination_cursor := p.cursor }⟩ := rfl

/-- `getLast?` of a cons with nonempty tail is `getLast?` of the tail. -/
theorem getLast?_cons_ne {α : Type} (a : α) (l : List α) (h : l ≠ []) :
    (a :: l).getLast? = l.getLast? := by
  cases l with
  | nil => exact absurd rfl h
  | cons b t => exact List.getLast?_cons_cons

/-- Prepending a cursored page pushes that cursor into the fallback slot of
`lastCursorOr`. -/
theorem lastCursorOr_cons_some (p : Page) (l : List Page) (a : Option String)
    (cur : String) (hc : p.cursor = some cur) :
    lastCursorOr (p :: l) a = lastCursorOr l (some cur) := by
  unfold lastCursorOr
  rw [List.filterMap_cons]
  simp only [hc]
  cases hgl : (l.filterMap Page.cursor) with
  | nil => simp
  | cons x xs =>
    rw [List.getLast?_cons_cons]
    cases hxl : (x :: xs).getLast? with
    | none => simp at hxl
    | some y => rfl

/-- Prepending a cursorless page leaves `lastCursorOr` unchanged. -/
theorem lastCursorOr_cons_none (p : Page) (l : List Page) (a : Option String)
    (hc : p.cursor = none) :
    lastCursorOr (p :: l) a = lastCursorOr l a := by
  unfold lastCursorOr
  rw [List.filterMap_cons]
  simp only [hc]

/-- `sumLensI` of the empty page list. -/
theorem sumLensI_nil : sumLensI [] = 0 := rfl

/-- `sumLensI` of a cons. -/
theorem sumLensI_cons (p : Page) (l : List Page) :
    sumLensI (p :: l) = p.data.length + sumLensI l := by
  simp [sumLensI, sumLensNat]

/-- The `_paginated_request` loop run against a script of 200 page responses
whose last page is cursorless: the number of requests, the returned records
and the final `params` fields are computed by the reference functions
`pagesConsumedGen`, `sumLensI` and `lastCursorOr`. -/
theorem pagRun_spec (tok : TokenResponse) (nowMs maxPer : Int) (cap : Option Int) :
    ∀ (pages : List Page) (fuel : Nat) (st : HelixState) (params : Params)
      (togo : Int) (acc : List Nat),
      pages ≠ [] →
      (∀ p, pages.getLast? = some p → p.cursor = none) →
      pages.length < fuel →
      (_paginated_request_loop tok nowMs maxPer cap fuel st (pages.map pageResp)
          params togo acc).requests = pagesConsumedGen cap pages togo ∧
      (_paginated_request_loop tok nowMs maxPer cap fuel st (pages.map pageResp)
          params togo acc).result
        = .ok (acc ++ ((pages.take (pagesConsumedGen cap pages togo)).map Page.data).flatten) ∧
      (_paginated_request_loop tok nowMs maxPer cap fuel st (pages.map pageResp)
          params togo acc).params.first
        = (if pagesConsumedGen cap pages togo = 0 then params.first
           else some (min maxPer (togo - sumLensI (pages.take (pagesConsumedGen cap pages togo - 1))))) ∧
      (_paginated_request_loop tok nowMs maxPer cap fuel st (pages.map pageResp)
          params togo acc).params.after
        = (if pagesConsumedGen cap pages togo = 0 then params.after
           else lastCursorOr (pages.take (pagesConsumedGen cap pages togo)) params.after) ∧
      (_paginated_request_loop tok nowMs maxPer cap fuel st (pages.map pageResp)
          params togo acc).params.rest = params.rest := by
  intro pages
  induction pages with
  | nil => intro fuel st params togo acc hne; exact absurd rfl hne
  | cons p ps ih =>
    intro fuel st params togo acc hne hlast hfuel
    cases fuel with
    | zero => simp at hfuel
    | succ f =>
      by_cases hcond : togo > 0 ∨ cap = none
      · cases hc : p.cursor with
        | none =>
          have hk : pagesConsumedGen cap (p :: ps) togo = 1 := by
            simp [pagesConsumedGen, hcond, hc]
          have hstep : _paginated_request_loop tok nowMs maxPer cap (f + 1) st
              ((p :: ps).map pageResp) params togo acc
              = ⟨{ observeHeaders st (pageResp p) with refreshClobbered := true },
                 { params with first := some (min maxPer togo) },
                 List.map pageResp ps, 1, .ok (acc ++ p.data)⟩ := by
            simp only [List.map_cons, _paginated_request_loop, if_pos hcond,
              get_request_page, hc]
          rw [hstep, hk]
          refine ⟨rfl, by simp, ?_, ?_, rfl⟩
          · simp [sumLensI_nil]
          · simp [lastCursorOr, hc]
        | some cur =>
          have hps : ps ≠ [] := by
            intro h
            subst h
            have hpl := hlast p (by simp)
            rw [hc] at hpl
            cases hpl
          have hlast2 : ∀ q, ps.getLast? = some q → q.cursor = none := by
            intro q hq
            apply hlast
            rwa [getLast?_cons_ne _ _ hps]
          have hfuel2 : ps.length < f := by
            simp only [List.length_cons] at hfuel
            omega
          have hstep : _paginated_request_loop tok nowMs maxPer cap (f + 1) st
              ((p :: ps).map pageResp) params togo acc
              = (let res := _paginated_request_loop tok nowMs maxPer cap f
                   { observeHeaders st (pageResp p) with refreshClobbered := true }
                   (List.map pageResp ps)
                   { params with first := some (min maxPer togo), after := some cur }
                   (togo - p.data.length) (acc ++ p.data)
                 ⟨res.st, res.params, res.rest, 1 + res.requests, res.result⟩) := by
            simp only [List.map_cons, _paginated_request_loop, if_pos hcond,
              get_request_page, hc]
          obtain ⟨ihreq, ihres, ihfirst, ihafter, ihrest⟩ :=
            ih f { observeHeaders st (pageResp p) with refreshClobbered := true }
              { params with first := some (min maxPer togo), after := some cur }
              (togo - p.data.length) (acc ++ p.data) hps hlast2 hfuel2
          have hk : pagesConsumedGen cap (p :: ps) togo
              = 1 + pagesConsumedGen cap ps (togo - p.data.length) := by
            simp [pagesConsumedGen, hcond, hc]
          have hq : (_paginated_request_loop tok nowMs maxPer cap (f + 1) st
              ((p :: ps).map pageResp) params togo acc).requests
              = 1 + (_paginated_request_loop tok nowMs maxPer cap f
                  { observeHeaders st (pageResp p) with refreshClobbered := true }
                  (List.map pageResp ps)
                  { params with first := some (min maxPer togo), after := some cur }
                  (togo - p.data.length) (acc ++ p.data)).requests := by
            rw [hstep]
          have hr : (_paginated_request_loop tok nowMs maxPer cap (f + 1) st
              ((p :: ps).map pageResp) params togo acc).result
              = (_paginated_request_loop tok nowMs maxPer cap f
                  { observeHeaders st (pageResp p) with refreshClobbered := true }
                  (List.map pageResp ps)
                  { params with first := some (min maxPer togo), after := some cur }
                  (togo - p.data.length) (acc ++ p.data)).result := by
            rw [hstep]
          have hp : (_paginated_request_loop tok nowMs maxPer cap (f + 1) st
              ((p :: ps).map pageResp) params togo acc).params
              = (_paginated_request_loop tok nowMs maxPer cap f
                  { observeHeaders st (pageResp p) with refreshClobbered := true }
                  (List.map pageResp ps)
                  { params with first := some (min maxPer togo), after := some cur }
                  (togo - p.data.length) (acc ++ p.data)).params := by
            rw [hstep]
          rw [hk, hq, hr, hp]
          refine ⟨by rw [ihreq], ?_, ?_, ?_, by rw [ihrest]⟩
          · rw [ihres]
            rw [Nat.add_comm 1 _, List.take_succ_cons]
            simp [List.append_assoc]
          · rw [ihfirst]
            by_cases hk2 : pagesConsumedGen cap ps (togo - p.data.length) = 0
            · simp [hk2, sumLensI_nil]
            · rw [if_neg hk2]
              have hne2 : 1 + pagesConsumedGen cap ps (togo - p.data.length) ≠ 0 := by
                omega
              rw [if_neg hne2]
              obtain ⟨m, hm⟩ : ∃ m, pagesConsumedGen cap ps (togo - p.data.length) = m + 1 :=
                ⟨_, (Nat.succ_pred_eq_of_pos (Nat.pos_of_ne_zero hk2)).symm⟩
              rw [hm]
              simp only [Nat.add_sub_cancel]
              have h1 : 1 + (m + 1) - 1 = m + 1 := by omega
              rw [h1, List.take_succ_cons, sumLensI_cons]
              rw [sub_sub]
          · rw [ihafter]
            by_cases hk2 : pagesConsumedGen cap ps (togo - p.data.length) = 0
            · rw [hk2]
              have hne2 : 1 + (0 : Nat) ≠ 0 := by omega
              rw [if_pos rfl, if_neg hne2]
              simp [lastCursorOr, hc]
            · rw [if_neg hk2]
              have hne2 : 1 + pagesConsumedGen cap ps (togo - p.data.length) ≠ 0 := by
                omega
              rw [if_neg hne2]
              have h2 : 1 + pagesConsumedGen cap ps (togo - p.data.length)
                  = pagesConsumedGen cap ps (togo - p.data.length) + 1 := by omega
              rw [h2, List.take_succ_cons, lastCursorOr_cons_some p _ _ cur hc]
      · have hk : pagesConsumedGen cap (p :: ps) togo = 0 := by
          simp only [pagesConsumedGen, if_neg hcond]
        have hstep : _paginated_request_loop tok nowMs maxPer cap (f + 1) st
            ((p :: ps).map pageResp) params togo acc
            = ⟨st, params, (p :: ps).map pageResp, 0, .ok acc⟩ := by
          simp only [_paginated_request_loop, if_neg hcond]
        rw [hstep, hk]
        exact ⟨rfl, by simp, by simp, by simp, rfl⟩

/-- Equation: a cursorless head page is consumed alone. -/
theorem pcg_cons_none (cap : Option Int) (p : Page) (ps : List Page) (togo : Int)
    (hcond : togo > 0 ∨ cap = none) (hc : p.cursor = none) :
    pagesConsumedGen cap (p :: ps) togo = 1 := by
  simp [pagesConsumedGen, hcond, hc]

/-- Equation: a cursored head page is consumed and the loop continues. -/
theorem pcg_cons_some (cap : Option Int) (p : Page) (ps : List Page) (togo : Int)
    (cur : String) (hcond : togo > 0 ∨ cap = none) (hc : p.cursor = some cur) :
    pagesConsumedGen cap (p :: ps) togo
      = 1 + pagesConsumedGen cap ps (togo - p.data.length) := by
  simp [pagesConsumedGen, hcond, hc]

/-- Equation: the loop does not run when the cap is exhausted. -/
theorem pcg_cons_stop (cap : Option Int) (p : Page) (ps : List Page) (togo : Int)
    (hcond : ¬ (togo > 0 ∨ cap = none)) :
    pagesConsumedGen cap (p :: ps) togo = 0 := by
  simp only [pagesConsumedGen, if_neg hcond]

/-- The loop never consumes more pages than the script holds. -/
theorem pcg_le (cap : Option Int) :
    ∀ (pages : List Page) (togo : Int),
      pagesConsumedGen cap pages togo ≤ pages.length := by
  intro pages
  induction pages with
  | nil => intro togo; simp [pagesConsumedGen]
  | cons p ps ih =>
    intro togo
    by_cases hcond : togo > 0 ∨ cap = none
    · cases hc : p.cursor with
      | none =>
        rw [pcg_cons_none cap p ps togo hcond hc]
        simp
      | some cur =>
        rw [pcg_cons_some cap p ps togo cur hcond hc]
        have := ih (togo - p.data.length)
        simp only [List.length_cons]
        omega
    · rw [pcg_cons_stop cap p ps togo hcond]
      simp

/-- The loop consumes at least one page when it runs at all. -/
theorem pcg_pos (cap : Option Int) (pages : List Page) (togo : Int)
    (hne : pages ≠ []) (h : togo > 0 ∨ cap = none) :
    1 ≤ pagesConsumedGen cap pages togo := by
  cases pages with
  | nil => exact absurd rfl hne
  | cons p ps =>
    cases hc : p.cursor with
    | none => rw [pcg_cons_none cap p ps togo h hc]
    | some cur =>
      rw [pcg_cons_some cap p ps togo cur h hc]
      omega

/-- With a specified cap, consuming a page implies quota was left. -/
theorem pcg_pos_inv (c : Int) (pages : List Page) (togo : Int)
    (h : pagesConsumedGen (some c) pages togo ≠ 0) : togo > 0 := by
  cases pages with
  | nil => simp [pagesConsumedGen] at h
  | cons p ps =>
    by_cases hcond : togo > 0 ∨ (some c : Option Int) = none
    · rcases hcond with h1 | h2
      · exact h1
      · cases h2
    · exact absurd (pcg_cons_stop (some c) p ps togo hcond) h

/-- Every page before the last consumed one carried a cursor and left the
accumulated count strictly below the cap. -/
theorem pcg_early (c : Int) :
    ∀ (pages : List Page) (togo : Int) (i : Nat),
      i + 1 < pagesConsumedGen (some c) pages togo →
      (pages.getD i dfltPage).cursor.isSome = true ∧
        sumLensI (pages.take (i + 1)) < togo := by
  intro pages
  induction pages with
  | nil =>
    intro togo i h
    simp [pagesConsumedGen] at h
  | cons p ps ih =>
    intro togo i h
    by_cases hcond : togo > 0 ∨ (some c : Option Int) = none
    · cases hc : p.cursor with
      | none =>
        rw [pcg_cons_none (some c) p ps togo hcond hc] at h
        exact absurd h (by omega)
      | some cur =>
        rw [pcg_cons_some (some c) p ps togo cur hcond hc] at h
        cases i with
        | zero =>
          refine ⟨by simp [hc], ?_⟩
          have h1 : pagesConsumedGen (some c) ps (togo - p.data.length) ≠ 0 := by
            omega
          have h2 := pcg_pos_inv c ps (togo - p.data.length) h1
          rw [List.take_succ_cons, List.take_zero, sumLensI_cons, sumLensI_nil]
          omega
        | succ j =>
          have h1 : j + 1 < pagesConsumedGen (some c) ps (togo - p.data.length) := by
            omega
          obtain ⟨ha, hb⟩ := ih (togo - p.data.length) j h1
          refine ⟨by simpa using ha, ?_⟩
          rw [List.take_succ_cons, sumLensI_cons]
          omega
    · rw [pcg_cons_stop (some c) p ps togo hcond] at h
      exact absurd h (by omega)

/-- The last consumed page is cursorless or the accumulated count reached
the cap. -/
theorem pcg_stop (c : Int) :
    ∀ (pages : List Page) (togo : Int),
      pages ≠ [] →
      (∀ p, pages.getLast? = some p → p.cursor = none) →
      1 ≤ pagesConsumedGen (some c) pages togo →
      ((pages.getD (pagesConsumedGen (some c) pages togo - 1) dfltPage).cursor = none
        ∨ togo ≤ sumLensI (pages.take (pagesConsumedGen (some c) pages togo))) := by
  intro pages
  induction pages with
  | nil => intro togo hne; exact absurd rfl hne
  | cons p ps ih =>
    intro togo hne hlast hpos
    by_cases hcond : togo > 0 ∨ (some c : Option Int) = none
    · cases hc : p.cursor with
      | none =>
        rw [pcg_cons_none (some c) p ps togo hcond hc]
        left
        simpa using hc
      | some cur =>
        have hps : ps ≠ [] := by
          intro hh
          subst hh
          have hpl := hlast p (by simp)
          rw [hc] at hpl
          cases hpl
        have hlast2 : ∀ q, ps.getLast? = some q → q.cursor = none := by
          intro q hq
          apply hlast
          rwa [getLast?_cons_ne _ _ hps]
        rw [pcg_cons_some (some c) p ps togo cur hcond hc]
        by_cases hk2 : pagesConsumedGen (some c) ps (togo - p.data.length) = 0
        · have hcond2 : ¬ (togo - p.data.length > 0 ∨ (some c : Option Int) = none) := by
            intro hcon
            have := pcg_pos (some c) ps (togo - p.data.length) hps hcon
            omega
          push_neg at hcond2
          right
          rw [hk2]
          rw [List.take_succ_cons, List.take_zero, sumLensI_cons, sumLensI_nil]
          have := hcond2.1
          omega
        · have hstop := ih (togo - p.data.length) hps hlast2 (by omega)
          rcases hstop with ha | hb
          · left
            obtain ⟨m, hm⟩ : ∃ m, pagesConsumedGen (some c) ps (togo - p.data.length) = m + 1 :=
              ⟨_, (Nat.succ_pred_eq_of_pos (Nat.pos_of_ne_zero hk2)).symm⟩
            rw [hm] at ha ⊢
            have h1 : 1 + (m + 1) - 1 = m + 1 := by omega
            rw [h1]
            simpa using ha
          · right
            have h2 : 1 + pagesConsumedGen (some c) ps (togo - p.data.length)
                = pagesConsumedGen (some c) ps (togo - p.data.length) + 1 := by omega
            rw [h2, List.take_succ_cons, sumLensI_cons]
            omega
    · have h0 := pcg_cons_stop (some c) p ps togo hcond
      omega

/-- With no cap, the loop consumes every page up to the cursorless one. -/
theorem pcg_capNone :
    ∀ (pages : List Page) (togo : Int),
      (∀ i, i + 1 < pages.length → (pages.getD i dfltPage).cursor.isSome = true) →
      (∀ p, pages.getLast? = some p → p.cursor = none) →
      pagesConsumedGen none pages togo = pages.length := by
  intro pages
  induction pages with
  | nil => intro togo _ _; rfl
  | cons p ps ih =>
    intro togo hcur hlast
    have hcond : togo > 0 ∨ (none : Option Int) = none := Or.inr rfl
    cases hps : ps with
    | nil =>
      subst hps
      have hpl := hlast p (by simp)
      rw [pcg_cons_none none p [] togo hcond hpl]
      rfl
    | cons q t =>
      subst hps
      have h0 : (p.cursor).isSome = true := by
        have := hcur 0 (by simp)
        simpa using this
      obtain ⟨cur, hc⟩ := Option.isSome_iff_exists.mp h0
      have hlast2 : ∀ r, (q :: t).getLast? = some r → r.cursor = none := by
        intro r hr
        apply hlast
        rwa [getLast?_cons_ne _ _ (by simp)]
      have hcur2 : ∀ i, i + 1 < (q :: t).length →
          ((q :: t).getD i dfltPage).cursor.isSome = true := by
        intro i hi
        have := hcur (i + 1) (by simpa using Nat.succ_lt_succ hi)
        simpa using this
      rw [pcg_cons_some none p (q :: t) togo cur hcond hc]
      rw [ih (togo - p.data.length) hcur2 hlast2]
      simp only [List.length_cons]
      omega

/-- Claim C5: for a paginated call with a specified positive cap against a
script of pages in which every response except the last carries a cursor, the
returned sequence's length equals the sum of the per-page record counts of
the fetched pages, and the loop stops exactly when a response omits the
cursor or the accumulated count reaches the cap, whichever happens first. -/
theorem c5_pagination_cap_and_cursor_stop
    (st : HelixState) (tok : TokenResponse) (nowMs : Int) (params : Params)
    (endpoint : String) (maxPer : Int) (pages : List Page) (c : Int) (r : PagResult)
    (hr : r = _paginated_request st (pages.map pageResp) tok nowMs endpoint params
      maxPer (some c))
    (hcpos : 0 < c) (hne : pages ≠ [])
    (hcur : ∀ i, i + 1 < pages.length → (pages.getD i dfltPage).cursor.isSome = true)
    (hlast : ∀ p, pages.getLast? = some p → p.cursor = none) :
    ∃ l, r.result = .ok l ∧
      l.length = sumLensNat (pages.take r.requests) ∧
      1 ≤ r.requests ∧ r.requests ≤ pages.length ∧
      (∀ i, i + 1 < r.requests →
        (pages.getD i dfltPage).cursor.isSome = true ∧
          sumLensI (pages.take (i + 1)) < c) ∧
      ((pages.getD (r.requests - 1) dfltPage).cursor = none
        ∨ c ≤ sumLensI (pages.take r.requests)) := by
  subst hr
  have hun : _paginated_request st (pages.map pageResp) tok nowMs endpoint params
      maxPer (some c)
      = _paginated_request_loop tok nowMs maxPer (some c)
          ((pages.map pageResp).length + 1) st (pages.map pageResp) params c [] := rfl
  obtain ⟨hreq, hres, _, _, _⟩ := pagRun_spec tok nowMs maxPer (some c) pages
    ((pages.map pageResp).length + 1) st params c [] hne hlast (by simp)
  rw [hun, hreq, hres]
  have hkpos : 1 ≤ pagesConsumedGen (some c) pages c :=
    pcg_pos (some c) pages c hne (Or.inl hcpos)
  refine ⟨_, rfl, ?_, hkpos, pcg_le (some c) pages c, ?_, ?_⟩
  · simp only [List.nil_append, List.length_flatten, List.map_map, sumLensNat,
      List.map_take]
    rfl
  · intro i hi
    exact pcg_early c pages c i hi
  · exact pcg_stop c pages c hne hlast hkpos

/-- Witness for C5: the spec's end-to-end scenario — pages of 100, 100 and 50
records with cursors `A`, `B`, none and cap 250 yield 250 records in exactly
3 requests. -/
theorem c5_pagination_cap_and_cursor_stop_witness :
    (_paginated_request st0 (pagesC5.map pageResp) tokGood 0 "clips" {} 100
        (some 250)).requests = 3 ∧
    ∃ l, (_paginated_request st0 (pagesC5.map pageResp) tokGood 0 "clips" {} 100
        (some 250)).result = .ok l ∧ l.length = 250 := by
  have h := c5_pagination_cap_and_cursor_stop st0 tokGood 0 {} "clips" 100 pagesC5 250
    (_paginated_request st0 (pagesC5.map pageResp) tokGood 0 "clips" {} 100 (some 250))
    rfl (by norm_num) (by simp [pagesC5])
    (by
      intro i hi
      have h3 : i < 2 := by
        simp [pagesC5] at hi
        omega
      interval_cases i <;> rfl)
    (by
      intro p hp
      have hgl : pagesC5.getLast? = some ⟨List.replicate 50 0, none⟩ := rfl
      rw [hgl] at hp
      cases hp
      rfl)
  obtain ⟨l, h1, h2, _, _, _, _⟩ := h
  exact ⟨rfl, l, h1, by rw [h2]; rfl⟩

/-- Claim C6 (amended): when `cap_records` is `None`, `records_to_go` is
initialized to the page size, but the loop does not stop after one page — it
continues as long as responses carry cursors and terminates only when a
response omits the cursor, consuming every scripted page. -/
theorem c6_amended_cap_none_runs_until_cursor_absent
    (st : HelixState) (tok : TokenResponse) (nowMs : Int) (params : Params)
    (endpoint : String) (maxPer : Int) (pages : List Page) (r : PagResult)
    (hr : r = _paginated_request st (pages.map pageResp) tok nowMs endpoint params
      maxPer none)
    (hne : pages ≠ [])
    (hcur : ∀ i, i + 1 < pages.length → (pages.getD i dfltPage).cursor.isSome = true)
    (hlast : ∀ p, pages.getLast? = some p → p.cursor = none) :
    r.requests = pages.length ∧ r.result = .ok ((pages.map Page.data).flatten) := by
  subst hr
  have hun : _paginated_request st (pages.map pageResp) tok nowMs endpoint params
      maxPer none
      = _paginated_request_loop tok nowMs maxPer none
          ((pages.map pageResp).length + 1) st (pages.map pageResp) params maxPer [] := rfl
  obtain ⟨hreq, hres, _, _, _⟩ := pagRun_spec tok nowMs maxPer none pages
    ((pages.map pageResp).length + 1) st params maxPer [] hne hlast (by simp)
  have hk := pcg_capNone pages maxPer hcur hlast
  rw [hun, hreq, hres, hk]
  refine ⟨rfl, ?_⟩
  rw [List.take_length]
  simp

/-- Witness for the amended C6: against two pages with a cursor on the
first, the call with `cap_records = None` issues one request per page and
returns all records. -/
theorem c6_amended_cap_none_runs_until_cursor_absent_witness :
    (_paginated_request st0 (pagesC6.map pageResp) tokGood 0 "games/top" {} 100
        none).requests = pagesC6.length ∧
    (_paginated_request st0 (pagesC6.map pageResp) tokGood 0 "games/top" {} 100
        none).result = .ok ((pagesC6.map Page.data).flatten) :=
  c6_amended_cap_none_runs_until_cursor_absent st0 tokGood 0 {} "games/top" 100 pagesC6
    (_paginated_request st0 (pagesC6.map pageResp) tokGood 0 "games/top" {} 100 none)
    rfl (by simp [pagesC6])
    (by
      intro i hi
      have h3 : i < 1 := by
        simp [pagesC6] at hi
        omega
      interval_cases i
      rfl)
    (by
      intro p hp
      have hgl : pagesC6.getLast? = some ⟨[7], none⟩ := rfl
      rw [hgl] at hp
      cases hp
      rfl)

/-- Claim C7: `get_clips` and `get_videos` raise the validation error with
zero transport requests and an unchanged client state whenever more than 100
identifiers are supplied or the count of mutually exclusive selector
parameters differs from one (including none supplied). -/
theorem c7_validation_errors_before_any_request :
    (∀ (st : HelixState) (script : List HttpResponse) (tok : TokenResponse)
       (nowMs : Int) (b g : Option String) (cid : Option (List String))
       (sa ea : Option String) (cap : Option Int),
       ((∃ l, cid = some l ∧ 100 < l.length) ∨
         ¬ selCount3 cid.isSome b.isSome g.isSome = 1) →
       get_clips st script tok nowMs b g cid sa ea cap = ⟨st, 0, .error .valueError⟩) ∧
    (∀ (st : HelixState) (script : List HttpResponse) (tok : TokenResponse)
       (nowMs : Int) (vids : Option (List String)) (uid gid : Option String)
       (lang period sort vtype : Option String) (cap : Option Int),
       ((∃ l, vids = some l ∧ 100 < l.length) ∨
         ¬ selCount3 vids.isSome uid.isSome gid.isSome = 1) →
       get_videos st script tok nowMs vids uid gid lang period sort vtype cap
         = ⟨st, 0, .error .valueError⟩) := by
  constructor
  · intro st script tok nowMs b g cid sa ea cap h
    by_cases hA : cid.isSome ∧ 100 < (cid.getD []).length
    · rw [get_clips, if_pos hA]
    · have hB : ¬ selCount3 cid.isSome b.isSome g.isSome = 1 := by
        rcases h with ⟨l, hl, hlen⟩ | hB
        · exact absurd ⟨by simp [hl], by simp [hl]; exact hlen⟩ hA
        · exact hB
      rw [get_clips, if_neg hA, if_pos hB]
  · intro st script tok nowMs vids uid gid lang period sort vtype cap h
    by_cases hA : vids.isSome ∧ 100 < (vids.getD []).length
    · rw [get_videos, if_pos hA]
    · have hB : ¬ selCount3 vids.isSome uid.isSome gid.isSome = 1 := by
        rcases h with ⟨l, hl, hlen⟩ | hB
        · exact absurd ⟨by simp [hl], by simp [hl]; exact hlen⟩ hA
        · exact hB
      rw [get_videos, if_neg hA, if_pos hB]

/-- Witness for C7: 101 clip ids, and a videos call with no selector at all,
each yield the validation error with zero requests. -/
theorem c7_validation_errors_before_any_request_witness :
    get_clips st0 [] tokGood 0 none none (some (List.replicate 101 "c")) none none none
      = ⟨st0, 0, .error .valueError⟩ ∧
    get_videos st0 [] tokGood 0 none none none none none none none none
      = ⟨st0, 0, .error .valueError⟩ :=
  ⟨c7_validation_errors_before_any_request.1 st0 [] tokGood 0 none none (some (List.replicate 101 "c")) none none
      none (Or.inl ⟨List.replicate 101 "c", rfl, by simp⟩),
   c7_validation_errors_before_any_request.2 st0 [] tokGood 0 none none none none none none none none
      (Or.inr (by decide))⟩

/-- Claim C8 (amended): on a successful exchange the registered callback is
invoked with the new credential, which is already installed; but an exception
raised by the callback propagates out of `_refresh_access_token` and aborts
the rest of the refresh, leaving `_access_token_refreshed` unchanged. -/
theorem c8_amended_callback_exception_propagates (st : HelixState) (tok : TokenResponse)
    (t : String) (f : String → Except Unit Unit)
    (hhttp : st.httpSet = true) (hhdr : st.headersSet = true)
    (hcb : st.access_token_refresh_callback = some f)
    (htok : tok.access_token = some t) (hf : f t = .error ()) :
    (_refresh_access_token st tok).2 = some .callbackError ∧
    (_refresh_access_token st tok).1.access_token = t ∧
    (_refresh_access_token st tok).1.authHeader = "Bearer " ++ t ∧
    (_refresh_access_token st tok).1._access_token_refreshed
      = st._access_token_refreshed := by
  simp [_refresh_access_token, hhttp, hhdr, hcb, htok, hf]

/-- Witness for the amended C8: a raising callback on a live client. -/
theorem c8_amended_callback_exception_propagates_witness :
    (_refresh_access_token stCb tokGood).2 = some .callbackError ∧
    (_refresh_access_token stCb tokGood).1.access_token = "newtok" ∧
    (_refresh_access_token stCb tokGood).1.authHeader = "Bearer " ++ "newtok" ∧
    (_refresh_access_token stCb tokGood).1._access_token_refreshed
      = stCb._access_token_refreshed :=
  c8_amended_callback_exception_propagates stCb tokGood "newtok" badCb rfl rfl rfl rfl rfl

/-- Claim C9 (amended): observing a response with absent rate-limit headers
overwrites both recorded values with Python `None` — it is not a no-op. -/
theorem c9_amended_absent_headers_store_none (st : HelixState) (r : HttpResponse)
    (h1 : r.ratelimitRemaining = none) (h2 : r.ratelimitReset = none) :
    (observeHeaders st r)._ratelimit_remaining = .pynone ∧
    (observeHeaders st r)._ratelimit_reset_timestamp = .pynone := by
  simp [observeHeaders, h1, h2, headerVal]

/-- Witness for the amended C9. -/
theorem c9_amended_absent_headers_store_none_witness :
    (observeHeaders st0 respNoHeaders)._ratelimit_remaining = .pynone ∧
    (observeHeaders st0 respNoHeaders)._ratelimit_reset_timestamp = .pynone :=
  c9_amended_absent_headers_store_none st0 respNoHeaders rfl rfl

/-- Claim C10 (amended): whenever the loop body runs at least once — the
initial counter (`cap_records`, or the page size when `cap_records` is
`None`) is positive, or `cap_records` is `None`, which makes the loop
condition unconditionally true — the caller's `params` dict ends with
`first` set to the last requested page size and `after` set to the last seen
cursor (falling back to its previous value when no fetched page carried
one), with all other keys untouched; but with a nonpositive specified cap
the loop never runs and `params` is returned exactly as supplied. -/
theorem c10_amended_params_mutation
    (st : HelixState) (tok : TokenResponse) (nowMs : Int) (params : Params)
    (endpoint : String) (maxPer : Int) (pages : List Page) (cap : Option Int)
    (togo0 : Int) (r : PagResult)
    (htogo : togo0 = (match cap with | none => maxPer | some n => n))
    (hr : r = _paginated_request st (pages.map pageResp) tok nowMs endpoint params
      maxPer cap)
    (hrun : 0 < togo0 ∨ cap = none)
    (hne : pages ≠ [])
    (hlast : ∀ p, pages.getLast? = some p → p.cursor = none) :
    (r.params.first
        = some (min maxPer
            (togo0 - sumLensI (pages.take (pagesConsumedGen cap pages togo0 - 1)))) ∧
      r.params.after
        = lastCursorOr (pages.take (pagesConsumedGen cap pages togo0)) params.after ∧
      r.params.rest = params.rest) ∧
    (∀ (c2 : Int) (script : List HttpResponse), c2 ≤ 0 →
      (_paginated_request st script tok nowMs endpoint params maxPer
        (some c2)).params = params ∧
      (_paginated_request st script tok nowMs endpoint params maxPer
        (some c2)).requests = 0) := by
  constructor
  · subst hr
    have hun : _paginated_request st (pages.map pageResp) tok nowMs endpoint params
        maxPer cap
        = _paginated_request_loop tok nowMs maxPer cap
            ((pages.map pageResp).length + 1) st (pages.map pageResp) params
            togo0 [] := by
      rw [htogo]
      rfl
    obtain ⟨_, _, hfirst, hafter, hrest⟩ := pagRun_spec tok nowMs maxPer cap pages
      ((pages.map pageResp).length + 1) st params togo0 [] hne hlast (by simp)
    have hkpos : 1 ≤ pagesConsumedGen cap pages togo0 :=
      pcg_pos cap pages togo0 hne hrun
    have hkne : pagesConsumedGen cap pages togo0 ≠ 0 := by omega
    rw [hun, hfirst, hafter, hrest, if_neg hkne, if_neg hkne]
    exact ⟨rfl, rfl, rfl⟩
  · intro c2 script hc2
    have hcond : ¬ (c2 > 0 ∨ (some c2 : Option Int) = none) := by
      intro hcon
      rcases hcon with h1 | h2
      · omega
      · exact Option.some_ne_none c2 h2
    have hstep : _paginated_request st script tok nowMs endpoint params maxPer (some c2)
        = ⟨st, params, script, 0, .ok []⟩ := by
      show _paginated_request_loop tok nowMs maxPer (some c2) (script.length + 1) st
          script params c2 [] = ⟨st, params, script, 0, .ok []⟩
      simp only [_paginated_request_loop, if_neg hcond]
    rw [hstep]
    exact ⟨rfl, rfl⟩

/-- Witness for the amended C10: after two pages under cap 10 the dict ends
with `first = 9` and `after = "A"`; with `cap_records = None` over the same
pages it ends with `first = 99` and `after = "A"`; under cap 0 it is
untouched. -/
theorem c10_amended_params_mutation_witness :
    (_paginated_request st0 (pagesC6.map pageResp) tokGood 0 "clips" paramsEx 100
        (some 10)).params.first = some 9 ∧
    (_paginated_request st0 (pagesC6.map pageResp) tokGood 0 "clips" paramsEx 100
        (some 10)).params.after = some "A" ∧
    (_paginated_request st0 (pagesC6.map pageResp) tokGood 0 "clips" paramsEx 100
        (some 10)).params.rest = paramsEx.rest ∧
    (_paginated_request st0 (pagesC6.map pageResp) tokGood 0 "games/top" paramsEx 100
        none).params.first = some 99 ∧
    (_paginated_request st0 (pagesC6.map pageResp) tokGood 0 "games/top" paramsEx 100
        none).params.after = some "A" ∧
    (_paginated_request st0 (pagesC6.map pageResp) tokGood 0 "games/top" paramsEx 100
        none).params.rest = paramsEx.rest ∧
    (_paginated_request st0 [] tokGood 0 "clips" paramsEx 100
        (some 0)).params = paramsEx := by
  obtain ⟨⟨h1, h2, h3⟩, h4⟩ := c10_amended_params_mutation st0 tokGood 0 paramsEx "clips" 100
    pagesC6 (some 10) 10
    (_paginated_request st0 (pagesC6.map pageResp) tokGood 0 "clips" paramsEx 100 (some 10))
    rfl rfl (Or.inl (by norm_num)) (by simp [pagesC6])
    (by
      intro p hp
      have hgl : pagesC6.getLast? = some ⟨[7], none⟩ := rfl
      rw [hgl] at hp
      cases hp
      rfl)
  obtain ⟨⟨h5, h6, h7⟩, _⟩ := c10_amended_params_mutation st0 tokGood 0 paramsEx "games/top" 100
    pagesC6 none 100
    (_paginated_request st0 (pagesC6.map pageResp) tokGood 0 "games/top" paramsEx 100 none)
    rfl rfl (Or.inr rfl) (by simp [pagesC6])
    (by
      intro p hp
      have hgl : pagesC6.getLast? = some ⟨[7], none⟩ := rfl
      rw [hgl] at hp
      cases hp
      rfl)
  refine ⟨?_, ?_, h3, ?_, ?_, h7, (h4 0 [] (le_refl 0)).1⟩
  · rw [h1]
    rfl
  · rw [h2]
    rfl
  · rw [h5]
    rfl
  · rw [h6]
    rfl
